import Mathlib

/-!
Verification of the Instacart MCP adapter (src/main.py).

The adapter exposes two tools, `create_shopping_list` and `create_recipe`.
Each validates a pydantic request model, serializes it with
`request.dict(exclude_none=True)` (fields whose value is `None` are omitted
entirely, recursively), and forwards it through `_call_instacart_api`, which
selects the environment from the `IS_PROD` flag, issues one HTTP POST with a
Bearer credential and a 30 second timeout, raises on 4xx/5xx statuses, and
extracts `products_link_url` from the JSON response.
-/

/-- JSON values, as serialized into the outbound request body. -/
inductive Json where
  | null
  | bool (b : Bool)
  | num (q : Rat)
  | str (s : String)
  | arr (xs : List Json)
  | obj (fields : List (String × Json))

/-- Lookup of a key in a JSON object's field list (Python dict access). -/
def lookupField (l : List (String × Json)) (k : String) : Option Json :=
  match l with
  | [] => none
  | (k0, v) :: rest => if k0 = k then some v else lookupField rest k

/-- Serialization of one optional model field under `exclude_none=True`:
a `None` value contributes no entry at all, a present value contributes one. -/
def optField (k : String) (f : α → Json) : Option α → List (String × Json)
  | none => []
  | some v => [(k, f v)]

/-- Caller-side state of one optional pydantic field: left unset,
explicitly set to `null`, or set to a value. -/
inductive FieldIn (α : Type) where
  | unset
  | null
  | val (v : α)

/-- Pydantic resolution of an `Optional[...]` field with declared default `d`:
an absent field takes the default, an explicit `null` becomes `None`,
a value is kept. -/
def FieldIn.resolve (d : Option α) : FieldIn α → Option α
  | .unset => d
  | .null => none
  | .val v => some v

/-- `LineItem` model after validation:
`name: str`, `quantity: Optional[float] = 1`, `unit: Optional[str] = "each"`,
`display_text: Optional[str] = None`. -/
structure LineItem where
  name : String
  quantity : Option Rat
  unit : Option String
  display_text : Option String

/-- Caller input for a `LineItem` (required `name`, optional rest). -/
structure LineItemIn where
  name : String
  quantity : FieldIn Rat := .unset
  unit : FieldIn String := .unset
  display_text : FieldIn String := .unset

/-- Pydantic validation of a `LineItem`, applying the declared defaults. -/
def LineItem.validate (i : LineItemIn) : LineItem :=
  { name := i.name
    quantity := i.quantity.resolve (some 1)
    unit := i.unit.resolve (some "each")
    display_text := i.display_text.resolve none }

/-- `LineItem.dict(exclude_none=True)`: field-declaration order, `None`
fields omitted. -/
def LineItem.toPayload (it : LineItem) : List (String × Json) :=
  [("name", .str it.name)]
    ++ optField "quantity" .num it.quantity
    ++ optField "unit" .str it.unit
    ++ optField "display_text" .str it.display_text

/-- `ShoppingListRequest` model after validation. -/
structure ShoppingListRequest where
  title : String
  line_items : List LineItem
  image_url : Option String
  instructions : Option (List String)
  partner_linkback_url : Option String

/-- Caller input for a `ShoppingListRequest`. -/
structure ShoppingListRequestIn where
  title : String
  line_items : List LineItemIn
  image_url : FieldIn String := .unset
  instructions : FieldIn (List String) := .unset
  partner_linkback_url : FieldIn String := .unset

/-- Pydantic validation of a `ShoppingListRequest` (all optionals default
to `None`; line items validated recursively). -/
def ShoppingListRequest.validate (s : ShoppingListRequestIn) : ShoppingListRequest :=
  { title := s.title
    line_items := s.line_items.map LineItem.validate
    image_url := s.image_url.resolve none
    instructions := s.instructions.resolve none
    partner_linkback_url := s.partner_linkback_url.resolve none }

/-- `ShoppingListRequest.dict(exclude_none=True)`: field-declaration order,
`None` fields omitted, nested line items serialized the same way. -/
def ShoppingListRequest.toPayload (r : ShoppingListRequest) : List (String × Json) :=
  [("title", .str r.title),
   ("line_items", .arr (r.line_items.map (fun it => .obj it.toPayload)))]
    ++ optField "image_url" .str r.image_url
    ++ optField "instructions" (fun l => .arr (l.map .str)) r.instructions
    ++ optField "partner_linkback_url" .str r.partner_linkback_url

/-- `Ingredient` model after validation (every field but `name` defaults
to `None`). -/
structure Ingredient where
  name : String
  display_text : Option String
  quantity : Option Rat
  unit : Option String

/-- Caller input for an `Ingredient`. -/
structure IngredientIn where
  name : String
  display_text : FieldIn String := .unset
  quantity : FieldIn Rat := .unset
  unit : FieldIn String := .unset

/-- Pydantic validation of an `Ingredient`. -/
def Ingredient.validate (i : IngredientIn) : Ingredient :=
  { name := i.name
    display_text := i.display_text.resolve none
    quantity := i.quantity.resolve none
    unit := i.unit.resolve none }

/-- `Ingredient.dict(exclude_none=True)`. -/
def Ingredient.toPayload (i : Ingredient) : List (String × Json) :=
  [("name", .str i.name)]
    ++ optField "display_text" .str i.display_text
    ++ optField "quantity" .num i.quantity
    ++ optField "unit" .str i.unit

/-- `RecipeRequest` model after validation
(`enable_pantry_items: Optional[bool] = False`). -/
structure RecipeRequest where
  title : String
  ingredients : List Ingredient
  image_url : Option String
  author : Option String
  servings : Option Int
  cooking_time : Option Int
  instructions : Option (List String)
  partner_linkback_url : Option String
  enable_pantry_items : Option Bool

/-- Caller input for a `RecipeRequest`. -/
structure RecipeRequestIn where
  title : String
  ingredients : List IngredientIn
  image_url : FieldIn String := .unset
  author : FieldIn String := .unset
  servings : FieldIn Int := .unset
  cooking_time : FieldIn Int := .unset
  instructions : FieldIn (List String) := .unset
  partner_linkback_url : FieldIn String := .unset
  enable_pantry_items : FieldIn Bool := .unset

/-- Pydantic validation of a `RecipeRequest`: every optional defaults to
`None` except `enable_pantry_items`, whose declared default is `False`. -/
def RecipeRequest.validate (r : RecipeRequestIn) : RecipeRequest :=
  { title := r.title
    ingredients := r.ingredients.map Ingredient.validate
    image_url := r.image_url.resolve none
    author := r.author.resolve none
    servings := r.servings.resolve none
    cooking_time := r.cooking_time.resolve none
    instructions := r.instructions.resolve none
    partner_linkback_url := r.partner_linkback_url.resolve none
    enable_pantry_items := r.enable_pantry_items.resolve (some false) }

/-- `RecipeRequest.dict(exclude_none=True)`: field-declaration order,
`None` fields omitted, nested ingredients serialized the same way. -/
def RecipeRequest.toPayload (r : RecipeRequest) : List (String × Json) :=
  [("title", .str r.title),
   ("ingredients", .arr (r.ingredients.map (fun i => .obj i.toPayload)))]
    ++ optField "image_url" .str r.image_url
    ++ optField "author" .str r.author
    ++ optField "servings" (fun n : Int => .num (n : Rat)) r.servings
    ++ optField "cooking_time" (fun n : Int => .num (n : Rat)) r.cooking_time
    ++ optField "instructions" (fun l => .arr (l.map .str)) r.instructions
    ++ optField "partner_linkback_url" .str r.partner_linkback_url
    ++ optField "enable_pantry_items" .bool r.enable_pantry_items

/-- Outbound payload of `create_shopping_list`:
`{**request.dict(exclude_none=True), "link_type": "shopping_list"}` —
the spread of the model dict with the discriminator key appended. -/
def shoppingListData (r : ShoppingListRequest) : List (String × Json) :=
  r.toPayload ++ [("link_type", .str "shopping_list")]

/-- Python `str.lower()`, character by character. -/
def pyLower (s : String) : String :=
  String.mk (s.data.map Char.toLower)

/-- Startup computation of the production flag:
`os.getenv("IS_PROD", "").lower() == "true"`. -/
def IS_PROD (env : Option String) : Bool :=
  pyLower (env.getD "") == "true"

/-- Process configuration read once at startup: the production flag and the
two credentials `INSTACART_API_KEY` / `INSTACART_API_KEY_DEV`. -/
structure Config where
  isProd : Bool
  apiKey : String
  apiKeyDev : String

/-- One outbound HTTP POST as assembled by `_call_instacart_api`:
target URL, JSON body, `Authorization` header value, timeout in seconds. -/
structure HttpRequest where
  url : String
  body : Json
  authHeader : String
  timeout : Rat

/-- Outcome of awaiting the single HTTP POST: a response with a status and
a JSON body, or expiry of the timeout. -/
inductive NetOutcome where
  | ok (status : Nat) (body : Json)
  | timedOut

/-- Errors `_call_instacart_api` can raise: `httpx.HTTPStatusError` from
`raise_for_status` (carrying status and body), `KeyError` from the missing
`products_link_url` field or a non-object body, `httpx.TimeoutException`. -/
inductive ApiError where
  | httpStatus (status : Nat) (body : Json)
  | shape
  | timedOut

/-- The request `_call_instacart_api` builds: production URL and credential
when `IS_PROD` holds, development URL and credential otherwise; JSON body,
Bearer header, 30 second timeout in both branches. -/
def buildRequest (cfg : Config) (endpoint : String) (data : Json) : HttpRequest :=
  if cfg.isProd then
    { url := "https://connect.instacart.com/idp/v1/" ++ endpoint
      body := data
      authHeader := "Bearer " ++ cfg.apiKey
      timeout := 30 }
  else
    { url := "https://connect.dev.instacart.tools/idp/v1/" ++ endpoint
      body := data
      authHeader := "Bearer " ++ cfg.apiKeyDev
      timeout := 30 }

/-- `response.raise_for_status()` followed by
`response.json()["products_link_url"]`: httpx raises `HTTPStatusError` with
the status and body for every status that is not a 2xx success (informational
1xx and redirect 3xx responses included — the client does not follow
redirects); on a 2xx response the field is extracted from the JSON object,
raising `KeyError` when absent. -/
def handleResponse (status : Nat) (body : Json) : Except ApiError Json :=
  if 200 ≤ status ∧ status ≤ 299 then
    match body with
    | .obj fields =>
      match lookupField fields "products_link_url" with
      | some v => .ok v
      | none => .error .shape
    | _ => .error .shape
  else
    .error (.httpStatus status body)

/-- `_call_instacart_api`: build the one request, await the network (`net`
stands for the transport), and unwrap the response. Returns the list of
requests actually issued (always exactly the one) together with the result. -/
def call_instacart_api (cfg : Config) (endpoint : String) (data : Json)
    (net : HttpRequest → NetOutcome) : List HttpRequest × Except ApiError Json :=
  let req := buildRequest cfg endpoint data
  match net req with
  | .ok status body => ([req], handleResponse status body)
  | .timedOut => ([req], .error .timedOut)

/-- The `create_shopping_list` tool: serialize the request, add the
`link_type` discriminator, call `products/products_link`. -/
def create_shopping_list (cfg : Config) (r : ShoppingListRequest)
    (net : HttpRequest → NetOutcome) : List HttpRequest × Except ApiError Json :=
  call_instacart_api cfg "products/products_link" (.obj (shoppingListData r)) net

/-- The `create_recipe` tool: serialize the request (no discriminator),
call `products/recipe`. -/
def create_recipe (cfg : Config) (r : RecipeRequest)
    (net : HttpRequest → NetOutcome) : List HttpRequest × Except ApiError Json :=
  call_instacart_api cfg "products/recipe" (.obj r.toPayload) net

/-! ## Helper lemmas -/

/-- Looking a key up past an entry with a different key skips the entry. -/
theorem lookupField_cons_ne {k0 k : String} {v : Json} {l : List (String × Json)}
    (h : ¬ k0 = k) : lookupField ((k0, v) :: l) k = lookupField l k := by
  simp [lookupField, h]

/-- Looking a key up in a serialized optional field with a different key
finds nothing there. -/
theorem lookupField_optField_ne {α : Type} {k0 k : String} {f : α → Json}
    {o : Option α} (h : ¬ k0 = k) : lookupField (optField k0 f o) k = none := by
  cases o <;> simp [optField, lookupField, h]

/-- Lookup distributes over list append. -/
theorem lookupField_append (l1 l2 : List (String × Json)) (k : String) :
    lookupField (l1 ++ l2) k = (lookupField l1 k).or (lookupField l2 k) := by
  induction l1 with
  | nil => simp [lookupField]
  | cons p rest ih =>
    obtain ⟨k0, v⟩ := p
    by_cases h : k0 = k <;> simp [lookupField, h, ih]

/-- Looking its own key up in a serialized optional field mirrors the
option value. -/
theorem lookupField_optField_self {α : Type} (k : String) (f : α → Json)
    (o : Option α) : lookupField (optField k f o) k = o.map f := by
  cases o <;> simp [optField, lookupField]

/-! ## Claim theorems -/

/-- C1: for every valid `ShoppingListRequest`, the outbound payload of
`create_shopping_list` contains every field the caller set (with its value),
omits entirely every optional field left unset — in particular no entry of
the payload carries a JSON null — and contains `link_type = "shopping_list"`. -/
theorem shopping_list_payload_fields (r : ShoppingListRequest) :
    lookupField (shoppingListData r) "title" = some (.str r.title) ∧
    lookupField (shoppingListData r) "line_items"
      = some (.arr (r.line_items.map (fun it => .obj it.toPayload))) ∧
    lookupField (shoppingListData r) "image_url" = Option.map Json.str r.image_url ∧
    lookupField (shoppingListData r) "instructions"
      = Option.map (fun l => Json.arr (l.map Json.str)) r.instructions ∧
    lookupField (shoppingListData r) "partner_linkback_url"
      = Option.map Json.str r.partner_linkback_url ∧
    lookupField (shoppingListData r) "link_type" = some (.str "shopping_list") ∧
    Json.null ∉ (shoppingListData r).map Prod.snd := by
  obtain ⟨t, li, iu, ins, plu⟩ := r
  cases iu <;> cases ins <;> cases plu <;>
    exact ⟨rfl, rfl, rfl, rfl, rfl, rfl, by
      simp [shoppingListData, ShoppingListRequest.toPayload, optField]⟩

/-- Witness for C1 at a concrete request: the discriminator is present and
the unset `image_url` is absent. -/
theorem shopping_list_payload_fields_witness :
    lookupField (shoppingListData ⟨"t", [], none, none, none⟩) "link_type"
      = some (.str "shopping_list") ∧
    lookupField (shoppingListData ⟨"t", [], none, none, none⟩) "image_url" = none := by
  have h := shopping_list_payload_fields ⟨"t", [], none, none, none⟩
  exact ⟨h.2.2.2.2.2.1, h.2.2.1⟩

/-- C6: the scenario input with title "Weekend BBQ" and one line item named
"Burger Buns" yields exactly the payload with defaults `quantity = 1` and
`unit = "each"` applied, `display_text` absent, no nulls, and the
discriminator appended. -/
theorem shopping_list_defaults_scenario :
    shoppingListData (ShoppingListRequest.validate
      { title := "Weekend BBQ", line_items := [{ name := "Burger Buns" }] }) =
    [("title", .str "Weekend BBQ"),
     ("line_items", .arr [.obj [("name", .str "Burger Buns"),
       ("quantity", .num 1), ("unit", .str "each")]]),
     ("link_type", .str "shopping_list")] := rfl

/-- C7: for every valid `RecipeRequest`, the outbound payload of
`create_recipe` never contains a `link_type` key. -/
theorem recipe_payload_no_link_type (r : RecipeRequest) :
    lookupField r.toPayload "link_type" = none := by
  obtain ⟨t, ing, a1, a2, a3, a4, a5, a6, a7⟩ := r
  simp only [RecipeRequest.toPayload, List.cons_append, List.nil_append,
    lookupField_append, lookupField]
  rw [if_neg (by decide), if_neg (by decide)]
  simp [lookupField_append,
    lookupField_optField_ne (show ¬ "image_url" = "link_type" by decide),
    lookupField_optField_ne (show ¬ "author" = "link_type" by decide),
    lookupField_optField_ne (show ¬ "servings" = "link_type" by decide),
    lookupField_optField_ne (show ¬ "cooking_time" = "link_type" by decide),
    lookupField_optField_ne (show ¬ "instructions" = "link_type" by decide),
    lookupField_optField_ne (show ¬ "partner_linkback_url" = "link_type" by decide),
    lookupField_optField_ne (show ¬ "enable_pantry_items" = "link_type" by decide),
    lookupField]

/-- C2: the single POST of every gateway invocation targets the production
host with the production credential when the production flag is true, and
the development host with the development credential when it is false; an
unset `IS_PROD` environment variable yields a false flag. -/
theorem gateway_env_selection (cfg : Config) (endpoint : String) (data : Json)
    (net : HttpRequest → NetOutcome) :
    IS_PROD none = false ∧
    (cfg.isProd = true → (call_instacart_api cfg endpoint data net).1 =
      [{ url := "https://connect.instacart.com/idp/v1/" ++ endpoint
         body := data
         authHeader := "Bearer " ++ cfg.apiKey
         timeout := 30 }]) ∧
    (cfg.isProd = false → (call_instacart_api cfg endpoint data net).1 =
      [{ url := "https://connect.dev.instacart.tools/idp/v1/" ++ endpoint
         body := data
         authHeader := "Bearer " ++ cfg.apiKeyDev
         timeout := 30 }]) := by
  have htrace : (call_instacart_api cfg endpoint data net).1
      = [buildRequest cfg endpoint data] := by
    cases h : net (buildRequest cfg endpoint data) <;>
      simp [call_instacart_api, h]
  refine ⟨by decide, fun h => ?_, fun h => ?_⟩ <;> rw [htrace] <;>
    simp [buildRequest, h]

/-- Witness for C2: a production configuration at a concrete call targets the
production URL with the production key. -/
theorem gateway_env_selection_witness :
    (call_instacart_api ⟨true, "k", "kd"⟩ "products/recipe" Json.null
      (fun _ => .timedOut)).1 =
    [{ url := "https://connect.instacart.com/idp/v1/" ++ "products/recipe"
       body := Json.null
       authHeader := "Bearer " ++ "k"
       timeout := 30 }] :=
  (gateway_env_selection ⟨true, "k", "kd"⟩ "products/recipe" Json.null
    (fun _ => .timedOut)).2.1 rfl

/-- C3: given an upstream response with status 200 and body
containing exactly the field `products_link_url` with string value `u`, both
`create_shopping_list` and `create_recipe` return exactly `u`. -/
theorem api_success_returns_url (cfg : Config) (slr : ShoppingListRequest)
    (rr : RecipeRequest) (u : String) (net1 net2 : HttpRequest → NetOutcome)
    (h1 : net1 (buildRequest cfg "products/products_link" (.obj (shoppingListData slr)))
      = .ok 200 (.obj [("products_link_url", .str u)]))
    (h2 : net2 (buildRequest cfg "products/recipe" (.obj rr.toPayload))
      = .ok 200 (.obj [("products_link_url", .str u)])) :
    (create_shopping_list cfg slr net1).2 = .ok (.str u) ∧
    (create_recipe cfg rr net2).2 = .ok (.str u) := by
  constructor <;>
    simp [create_shopping_list, create_recipe, call_instacart_api, h1, h2,
      handleResponse, lookupField]

/-- Witness for C3 on the URL of the spec scenario. -/
theorem api_success_returns_url_witness :
    (create_shopping_list ⟨false, "k", "kd"⟩ ⟨"t", [], none, none, none⟩
      (fun _ => .ok 200 (.obj [("products_link_url",
        .str "https://instacart.com/x")]))).2
      = .ok (.str "https://instacart.com/x") ∧
    (create_recipe ⟨false, "k", "kd"⟩
      ⟨"t", [], none, none, none, none, none, none, some false⟩
      (fun _ => .ok 200 (.obj [("products_link_url",
        .str "https://instacart.com/x")]))).2
      = .ok (.str "https://instacart.com/x") :=
  api_success_returns_url ⟨false, "k", "kd"⟩ ⟨"t", [], none, none, none⟩
    ⟨"t", [], none, none, none, none, none, none, some false⟩
    "https://instacart.com/x" _ _ rfl rfl

/-- C4: when the upstream responds with a failure status (4xx/5xx), the
gateway call fails with an HTTP status error carrying the status and the
response body, returns no URL, and still issued exactly one request. -/
theorem api_error_status_fails (cfg : Config) (endpoint : String) (data : Json)
    (net : HttpRequest → NetOutcome) (status : Nat) (body : Json)
    (hnet : net (buildRequest cfg endpoint data) = .ok status body)
    (h4 : 400 ≤ status) (h5 : status ≤ 599) :
    (call_instacart_api cfg endpoint data net).2
      = .error (.httpStatus status body) ∧
    (call_instacart_api cfg endpoint data net).1.length = 1 := by
  have hns : ¬ (200 ≤ status ∧ status ≤ 299) := by omega
  constructor <;> simp [call_instacart_api, hnet, handleResponse, hns]

/-- Witness for C4 at status 422 with a concrete error body. -/
theorem api_error_status_fails_witness :
    (call_instacart_api ⟨false, "k", "kd"⟩ "products/recipe" Json.null
      (fun _ => .ok 422 (.obj [("error", .str "unprocessable")]))).2
      = .error (.httpStatus 422 (.obj [("error", .str "unprocessable")])) ∧
    (call_instacart_api ⟨false, "k", "kd"⟩ "products/recipe" Json.null
      (fun _ => .ok 422 (.obj [("error", .str "unprocessable")]))).1.length = 1 :=
  api_error_status_fails ⟨false, "k", "kd"⟩ "products/recipe" Json.null _
    422 (.obj [("error", .str "unprocessable")]) rfl (by decide) (by decide)

/-- C5: when the upstream responds with a success status (2xx) but the JSON
object body lacks the `products_link_url` field, the gateway call fails with
the key/shape error — it does not return an `ok` value of any kind. -/
theorem api_missing_url_field_fails (cfg : Config) (endpoint : String)
    (data : Json) (net : HttpRequest → NetOutcome) (status : Nat)
    (fields : List (String × Json))
    (hnet : net (buildRequest cfg endpoint data) = .ok status (.obj fields))
    (hstatus : 200 ≤ status ∧ status ≤ 299)
    (hmiss : lookupField fields "products_link_url" = none) :
    (call_instacart_api cfg endpoint data net).2 = .error .shape := by
  simp [call_instacart_api, hnet, handleResponse, hstatus, hmiss]

/-- Witness for C5 at status 200 with an empty object body. -/
theorem api_missing_url_field_fails_witness :
    (call_instacart_api ⟨false, "k", "kd"⟩ "products/products_link" Json.null
      (fun _ => .ok 200 (.obj []))).2 = .error .shape :=
  api_missing_url_field_fails ⟨false, "k", "kd"⟩ "products/products_link"
    Json.null _ 200 [] rfl (by decide) rfl

/-- C8: every gateway invocation issues exactly one outbound POST, whose body
is the payload, whose `Authorization` header is `Bearer` plus the selected
credential, and whose timeout is the fixed 30 seconds; when the network times
out the call fails with the timeout error, still with that single request. -/
theorem gateway_single_post_frame (cfg : Config) (endpoint : String)
    (data : Json) (net : HttpRequest → NetOutcome) :
    (call_instacart_api cfg endpoint data net).1 = [buildRequest cfg endpoint data] ∧
    (buildRequest cfg endpoint data).body = data ∧
    (buildRequest cfg endpoint data).timeout = 30 ∧
    (buildRequest cfg endpoint data).authHeader
      = "Bearer " ++ (if cfg.isProd then cfg.apiKey else cfg.apiKeyDev) ∧
    (net (buildRequest cfg endpoint data) = .timedOut →
      (call_instacart_api cfg endpoint data net).2 = .error .timedOut) := by
  refine ⟨?_, ?_, ?_, ?_, fun h => ?_⟩
  · cases h : net (buildRequest cfg endpoint data) <;>
      simp [call_instacart_api, h]
  · cases hc : cfg.isProd <;> simp [buildRequest, hc]
  · cases hc : cfg.isProd <;> simp [buildRequest, hc]
  · cases hc : cfg.isProd <;> simp [buildRequest, hc]
  · simp [call_instacart_api, h]

/-- Witness for C8 on a timing-out network with a development configuration. -/
theorem gateway_single_post_frame_witness :
    (call_instacart_api ⟨false, "k", "kd"⟩ "products/recipe" Json.null
      (fun _ => .timedOut)).2 = .error .timedOut ∧
    (buildRequest ⟨false, "k", "kd"⟩ "products/recipe" Json.null).timeout = 30 := by
  have h := gateway_single_post_frame ⟨false, "k", "kd"⟩ "products/recipe"
    Json.null (fun _ => .timedOut)
  exact ⟨h.2.2.2.2 rfl, h.2.2.1⟩

/-- In the recipe payload, the `enable_pantry_items` entry mirrors exactly
the model field: present with its boolean value when the field is not `None`,
absent when it is. -/
theorem recipe_lookup_pantry (R : RecipeRequest) :
    lookupField R.toPayload "enable_pantry_items"
      = Option.map Json.bool R.enable_pantry_items := by
  simp only [RecipeRequest.toPayload, List.cons_append, List.nil_append,
    lookupField_append, lookupField]
  rw [if_neg (by decide), if_neg (by decide)]
  simp [lookupField_append,
    lookupField_optField_ne
      (show ¬ "image_url" = "enable_pantry_items" by decide),
    lookupField_optField_ne
      (show ¬ "author" = "enable_pantry_items" by decide),
    lookupField_optField_ne
      (show ¬ "servings" = "enable_pantry_items" by decide),
    lookupField_optField_ne
      (show ¬ "cooking_time" = "enable_pantry_items" by decide),
    lookupField_optField_ne
      (show ¬ "instructions" = "enable_pantry_items" by decide),
    lookupField_optField_ne
      (show ¬ "partner_linkback_url" = "enable_pantry_items" by decide),
    lookupField_optField_self]

/-- C9: omission is decided by the value being `None`, not by the field being
unset — an optional field the caller explicitly sets to `null` is omitted
from the payload entirely, even for a `LineItem`'s `quantity` and `unit`
whose declared defaults are non-null, and likewise for a request-level
optional and for `enable_pantry_items`. -/
theorem explicit_null_omits_field :
    (∀ i : LineItemIn, i.quantity = .null →
      lookupField (LineItem.validate i).toPayload "quantity" = none) ∧
    (∀ i : LineItemIn, i.unit = .null →
      lookupField (LineItem.validate i).toPayload "unit" = none) ∧
    (∀ s : ShoppingListRequestIn, s.image_url = .null →
      lookupField (shoppingListData (ShoppingListRequest.validate s))
        "image_url" = none) ∧
    (∀ r : RecipeRequestIn, r.enable_pantry_items = .null →
      lookupField (RecipeRequest.validate r).toPayload
        "enable_pantry_items" = none) := by
  refine ⟨fun i h => ?_, fun i h => ?_, fun s h => ?_, fun r h => ?_⟩
  · obtain ⟨n, q, un, d⟩ := i
    subst h
    cases un <;> cases d <;> rfl
  · obtain ⟨n, q, un, d⟩ := i
    subst h
    cases q <;> cases d <;> rfl
  · obtain ⟨t, li, iu, ins, plu⟩ := s
    subst h
    cases ins <;> cases plu <;> rfl
  · rw [recipe_lookup_pantry]
    show Option.map Json.bool
      (FieldIn.resolve (some false) r.enable_pantry_items) = none
    rw [h]
    rfl

/-- Witness for C9: a line item whose `quantity` is explicitly null carries
no `quantity` key at all. -/
theorem explicit_null_omits_field_witness :
    lookupField (LineItem.validate
      { name := "Burger Buns", quantity := .null }).toPayload "quantity"
      = none :=
  explicit_null_omits_field.1 { name := "Burger Buns", quantity := .null } rfl

/-- C10: for every valid `RecipeRequest` whose caller leaves
`enable_pantry_items` unset, the payload still contains
`enable_pantry_items = false`: the declared default `False` is not `None`,
so `exclude_none` keeps it. -/
theorem unset_pantry_items_sent_as_false (r : RecipeRequestIn)
    (h : r.enable_pantry_items = .unset) :
    lookupField (RecipeRequest.validate r).toPayload "enable_pantry_items"
      = some (.bool false) := by
  rw [recipe_lookup_pantry]
  show Option.map Json.bool
    (FieldIn.resolve (some false) r.enable_pantry_items) = some (.bool false)
  rw [h]
  rfl

/-- Witness for C10 at the minimal recipe input. -/
theorem unset_pantry_items_sent_as_false_witness :
    lookupField (RecipeRequest.validate
      { title := "Chili", ingredients := [] }).toPayload "enable_pantry_items"
      = some (.bool false) :=
  unset_pantry_items_sent_as_false { title := "Chili", ingredients := [] } rfl
